import Mathlib

/-!
Shallow embedding of the SillyTavern Fetch Retry extension (src/index.js):
the wrapped window.fetch retry loop, the delay calculator getRetryDelay,
the response validity check isResponseInvalid, and the retry / error
notification behavior.  Durations are exact rationals (JS doubles
idealized: Math.pow(1.5, n) becomes (3/2)^n and Math.pow(1.2, n) becomes
(6/5)^n).  The host behavior of one underlying fetch call is an AttemptEnv;
observable side effects are recorded as an ordered event list.
-/

/-- A thrown JS error value, identified by its name and message; the source
classifies caught errors by err.name and err.message (src/index.js:801-816). -/
structure JsError where
  name : String
  message : String
deriving DecidableEq

/-- The slice of a fetch Response the source reads: status, statusText, and
the Retry-After header value (src/index.js:597-598). -/
structure Response where
  status : Nat
  statusText : String
  retryAfterHeader : Option String
deriving DecidableEq

/-- The error built by the thinking-timeout timer (src/index.js:704-705). -/
def timeoutError : JsError :=
  { name := "TimeoutError", message := "Thinking timeout reached" }

/-- The DOMException thrown when the caller's signal is found aborted at the
top of the retry loop (src/index.js:652). -/
def abortedByUserError : JsError :=
  { name := "AbortError", message := "Request aborted by user" }

/-- Models JS throwing an undefined lastError; unreachable from wrappedFetch
because every loop exit path records an error first. -/
def jsUndefined : JsError :=
  { name := "undefined", message := "" }

/-- The new Error built for a 429 response (src/index.js:755 and 760). -/
def rateLimitError (r : Response) : JsError :=
  { name := "Error", message := "Rate limited (429): " ++ r.statusText }

/-- The new Error built for a 5xx response (src/index.js:767 and 771). -/
def serverError (r : Response) : JsError :=
  { name := "Error", message := "Server error (" ++ toString r.status ++ "): " ++ r.statusText }

/-- The new Error thrown for a status outside the 2xx/4xx/5xx handling
(src/index.js:783). -/
def httpStatusError (r : Response) : JsError :=
  { name := "Error", message := "HTTP " ++ toString r.status ++ ": " ++ r.statusText }

/-- The new Error built for an invalid streaming response (src/index.js:740). -/
def invalidError (reason : String) : JsError :=
  { name := "Error", message := "Response invalid: " ++ reason }

/-- The fetchRetrySettings record (src/index.js:10-21) as read by the core. -/
structure Policy where
  enabled : Bool
  maxRetries : Nat
  retryDelay : ℚ
  rateLimitDelay : ℚ
  thinkingTimeout : ℚ
  enableThinkingTimeout : Bool
  showErrorNotification : Bool
  streamInactivityTimeout : ℚ
  minRetryDelay : ℚ
  debugMode : Bool

/-- Models the host Math.max on two numbers. -/
def maxQ (a b : ℚ) : ℚ :=
  if a ≤ b then b else a

/-- Models the host Math.min on two numbers. -/
def minQ (a b : ℚ) : ℚ :=
  if a ≤ b then a else b

/-- Models the host Math.pow for natural exponents. -/
def powQ (b : ℚ) : Nat → ℚ
  | 0 => 1
  | n + 1 => powQ b n * b

/-- Decimal digit accumulation used by parseIntJS. -/
def digitsToNat (ds : List Char) : Nat :=
  ds.foldl (fun acc c => acc * 10 + (c.toNat - 48)) 0

/-- Models the host parseInt(string) as applied to the Retry-After header
(src/index.js:599-600): skip leading whitespace, read an optional sign and
then decimal digits up to the first non-digit; none models NaN.  The
hexadecimal 0x prefix accepted by the host parseInt is not modelled. -/
def parseIntJS (s : String) : Option Int :=
  let cs := s.toList.dropWhile (fun c => c == ' ' || c == '\t' || c == '\n' || c == '\r')
  match cs with
  | '-' :: rest =>
    let ds := rest.takeWhile (fun c => c.isDigit)
    if ds.isEmpty then none else some (-(digitsToNat ds : Int))
  | '+' :: rest =>
    let ds := rest.takeWhile (fun c => c.isDigit)
    if ds.isEmpty then none else some ((digitsToNat ds : Int))
  | rest =>
    let ds := rest.takeWhile (fun c => c.isDigit)
    if ds.isEmpty then none else some ((digitsToNat ds : Int))

/-- Stage one of getRetryDelay (src/index.js:593-604): the delay after the
Retry-After step, namely minRetryDelay raised to the parsed header value in
milliseconds capped at 30000 ms when the header is present and parses. -/
def delayAfterHeader (p : Policy) (response : Option Response) : ℚ :=
  match response with
  | some r =>
    match r.retryAfterHeader with
    | some h =>
      match parseIntJS h with
      | some seconds => maxQ p.minRetryDelay (minQ ((seconds : ℚ) * 1000) 30000)
      | none => p.minRetryDelay
    | none => p.minRetryDelay
  | none => p.minRetryDelay

/-- Stage two of getRetryDelay (src/index.js:606-610): the delay raised to
the 429 schedule rateLimitDelay * 1.5^attempt when the response is a 429. -/
def delayAfterRate (p : Policy) (response : Option Response) (attempt : Nat) : ℚ :=
  match response with
  | some r =>
    if r.status = 429 then
      maxQ (delayAfterHeader p response) (p.rateLimitDelay * powQ (3 / 2 : ℚ) attempt)
    else delayAfterHeader p response
  | none => delayAfterHeader p response

/-- getRetryDelay (src/index.js:591-617): the staged floor finally raised to
the generic schedule retryDelay * 1.2^attempt (src/index.js:613).  The error
argument is unused by the source beyond debug logging. -/
def getRetryDelay (p : Policy) (error : Option JsError) (response : Option Response)
    (attempt : Nat) : ℚ :=
  maxQ (delayAfterRate p response attempt) (p.retryDelay * powQ (6 / 5 : ℚ) attempt)

/-- Transcription of the Delay Calculator algorithm exactly as worded by the
spec, for comparison with getRetryDelay: start from minRetryDelay as a
floor; if a Retry-After header parses to an integer number of seconds raise
the floor to min(seconds*1000, 30000) but never below the current floor; if
the outcome is a 429 raise the floor to rateLimitDelay * 1.5^attempt; return
max(floor, retryDelay * 1.2^attempt). -/
def computeDelaySpec (p : Policy) (response : Option Response) (attempt : Nat) : ℚ :=
  let floor0 := p.minRetryDelay
  let floor1 :=
    match response with
    | some r =>
      match r.retryAfterHeader with
      | some h =>
        match parseIntJS h with
        | some seconds => max floor0 (min ((seconds : ℚ) * 1000) 30000)
        | none => floor0
      | none => floor0
    | none => floor0
  let floor2 :=
    match response with
    | some r =>
      if r.status = 429 then max floor1 (p.rateLimitDelay * (3 / 2 : ℚ) ^ attempt)
      else floor1
    | none => floor1
  max floor2 (p.retryDelay * (6 / 5 : ℚ) ^ attempt)

/-- Head test on character lists, used by strIncludes. -/
def startsWithL : List Char → List Char → Bool
  | _, [] => true
  | [], _ :: _ => false
  | c :: cs, d :: ds => c == d && startsWithL cs ds

/-- Contiguous sublist test on character lists, used by strIncludes. -/
def hasSubList (needle : List Char) : List Char → Bool
  | [] => needle.isEmpty
  | c :: cs => startsWithL (c :: cs) needle || hasSubList needle cs

/-- Models JS String.prototype.includes as used at src/index.js:564. -/
def strIncludes (hay needle : String) : Bool :=
  hasSubList needle.toList hay.toList

/-- The generation endpoint allow-list (src/index.js:563). -/
def generationEndpoints : List String :=
  ["/completion", "/generate", "/chat/completions", "/run/predict"]

/-- isResponseInvalid (src/index.js:553-588).  streamTimeoutId is the
module-level variable declared at src/index.js:551; it is never assigned
anywhere in the module, so every call in the program receives none.  The
response argument is unused by the source.  Every control path returns
invalid = false: the stream_inactivity branch sits in a catch handler whose
guarded block cannot throw. -/
def isResponseInvalid (p : Policy) (streamTimeoutId : Option Nat) (response : Response)
    (url : String) : Bool × String :=
  if p.streamInactivityTimeout = 0 then (false, "")
  else
    let isGenerationUrl := generationEndpoints.any (fun ep => strIncludes url ep)
    if isGenerationUrl = false then (false, "")
    else if streamTimeoutId.isSome then (false, "")
    else (false, "")

/-- Host behavior of one underlying originalFetch call: the time in ms at
which the call settles and what it settles with, or none if it never
settles.  abortedAtTop is the state of the caller's original signal at the
loop-top check (src/index.js:650); abortedAtCatch is its state when the
catch handler inspects originalSignal (src/index.js:805). -/
structure AttemptEnv where
  abortedAtTop : Bool
  fetchOutcome : Option (ℚ × Except JsError Response)
  abortedAtCatch : Bool

/-- Settlement of one attempt inside the try block (src/index.js:698-715):
when enableThinkingTimeout the fetch is raced against a thinkingTimeout
timer rejecting with timeoutError; the timer wins when the fetch never
settles or settles strictly after the timer fires (a tie goes to the
fetch).  Without the flag the bare fetch settlement is awaited, and none
means the await never returns.  The source tests only the flag, never the
thinkingTimeout value itself (src/index.js:701). -/
def attemptOutcome (p : Policy) (env : AttemptEnv) : Option (Except JsError Response) :=
  if p.enableThinkingTimeout then
    match env.fetchOutcome with
    | none => some (Except.error timeoutError)
    | some (t, res) => if p.thinkingTimeout < t then some (Except.error timeoutError) else some res
  else
    match env.fetchOutcome with
    | none => none
    | some (_, res) => some res

/-- The bare settlement of the underlying fetch, with no timeout overlay. -/
def rawSettle (env : AttemptEnv) : Option (Except JsError Response) :=
  match env.fetchOutcome with
  | none => none
  | some (_, res) => some res

/-- Observable side effects of the wrapped fetch, in program order. -/
inductive Ev where
  | fetchCall (attempt : Nat)
  | retryToast (attempt maxRetries : Nat) (error : JsError)
  | waitDelay (ms : ℚ)
  | errorNote (error : Option JsError) (response : Option Response)
deriving DecidableEq

/-- True on an underlying-fetch event. -/
def Ev.isFetch : Ev → Bool
  | Ev.fetchCall _ => true
  | _ => false

/-- True on a retry toast event (showRetryToast invocation). -/
def Ev.isToast : Ev → Bool
  | Ev.retryToast _ _ _ => true
  | _ => false

/-- True on an inter-attempt wait event. -/
def Ev.isWait : Ev → Bool
  | Ev.waitDelay _ => true
  | _ => false

/-- True on an error-notification event (showErrorNotification invocation). -/
def Ev.isNote : Ev → Bool
  | Ev.errorNote _ _ => true
  | _ => false

/-- Final settlement of the wrapped fetch promise: a returned response or a
thrown error. -/
inductive FetchOutcome where
  | ret (r : Response)
  | thrown (e : JsError)
deriving DecidableEq

/-- Observable behavior of handleRetry (src/index.js:493-505): a retry toast
via showRetryToast only when attempt > 0 (src/index.js:495), then a wait of
getRetryDelay(error, response, attempt); its caller stores attempt + 1. -/
def retryEvents (p : Policy) (err : JsError) (resp : Option Response) (attempt : Nat) :
    List Ev :=
  (if 0 < attempt then [Ev.retryToast attempt p.maxRetries err] else [])
    ++ [Ev.waitDelay (getRetryDelay p (some err) resp attempt)]

/-- The catch handler (src/index.js:785-829) for an error e caught on
attempt a with lastResponse lr: an AbortError whose signal is aborted or
whose message is one of the recognized user-abort messages is rethrown at
once with no retry and no notification; otherwise the loop breaks to the
terminal notification when a is at least maxRetries, else handleRetry runs
and the loop continues (recur is the rest of the run, with lastError e). -/
def catchResult (p : Policy) (a : Nat) (e : JsError) (lr : Option Response)
    (abortedAtCatch : Bool) (recur : JsError → Option (FetchOutcome × List Ev)) :
    Option (FetchOutcome × List Ev) :=
  let rb :=
    if p.maxRetries ≤ a then
      some (FetchOutcome.thrown e, [Ev.fetchCall a, Ev.errorNote (some e) lr])
    else
      (recur e).map (fun x => (x.1, Ev.fetchCall a :: retryEvents p e lr a ++ x.2))
  if e.name = "TimeoutError" then rb
  else if e.name = "AbortError" then
    if abortedAtCatch = true ∨ e.message = "User aborted" ∨
        e.message = "Request aborted by user" then
      some (FetchOutcome.thrown e, [Ev.fetchCall a])
    else rb
  else rb

/-- One run of the retry while-loop (src/index.js:648-838) starting at
attempt a with fuel = maxRetries + 1 - a iterations left, lastError le and
lastResponse lr.  Returns the settlement of the wrapped fetch promise and
the emitted events, or none when the run never settles.  fuel 0 is the
natural loop exit (unreachable: every continue happens with a < maxRetries). -/
def loopGo (p : Policy) (envs : Nat → AttemptEnv) (url : String) :
    Nat → Nat → Option JsError → Option Response → Option (FetchOutcome × List Ev)
  | 0, _, le, lr => some (FetchOutcome.thrown (le.getD jsUndefined), [Ev.errorNote le lr])
  | fuel + 1, a, le, lr =>
    if (envs a).abortedAtTop then some (FetchOutcome.thrown abortedByUserError, [])
    else
      match attemptOutcome p (envs a) with
      | none => none
      | some (Except.ok r) =>
        if 200 ≤ r.status ∧ r.status ≤ 299 then
          if (isResponseInvalid p none r url).1 = true ∧ a < p.maxRetries then
            (loopGo p envs url fuel (a + 1) le (some r)).map
              (fun x => (x.1,
                Ev.fetchCall a ::
                  retryEvents p (invalidError (isResponseInvalid p none r url).2) (some r) a
                    ++ x.2))
          else some (FetchOutcome.ret r, [Ev.fetchCall a])
        else if r.status = 429 then
          if a < p.maxRetries then
            (loopGo p envs url fuel (a + 1) le (some r)).map
              (fun x => (x.1,
                Ev.fetchCall a :: retryEvents p (rateLimitError r) (some r) a ++ x.2))
          else
            some (FetchOutcome.thrown (rateLimitError r),
              [Ev.fetchCall a, Ev.errorNote (some (rateLimitError r)) (some r)])
        else if 500 ≤ r.status then
          if a < p.maxRetries then
            (loopGo p envs url fuel (a + 1) le (some r)).map
              (fun x => (x.1,
                Ev.fetchCall a :: retryEvents p (serverError r) (some r) a ++ x.2))
          else
            some (FetchOutcome.thrown (serverError r),
              [Ev.fetchCall a, Ev.errorNote (some (serverError r)) (some r)])
        else if 400 ≤ r.status then some (FetchOutcome.ret r, [Ev.fetchCall a])
        else
          catchResult p a (httpStatusError r) (some r) (envs a).abortedAtCatch
            (fun e2 => loopGo p envs url fuel (a + 1) (some e2) (some r))
      | some (Except.error e) =>
        catchResult p a e lr (envs a).abortedAtCatch
          (fun e2 => loopGo p envs url fuel (a + 1) (some e2) lr)

/-- Pass-through mode: a single unmodified originalFetch call, taken when
the extension is disabled (src/index.js:627) or the caller's signal is
already aborted at entry (src/index.js:641). -/
def passthroughFetch (envs : Nat → AttemptEnv) : Option (FetchOutcome × List Ev) :=
  match (envs 0).fetchOutcome with
  | none => none
  | some (_, Except.ok r) => some (FetchOutcome.ret r, [Ev.fetchCall 0])
  | some (_, Except.error e) => some (FetchOutcome.thrown e, [Ev.fetchCall 0])

/-- The wrapped window.fetch (src/index.js:624-839): bypass when disabled or
when the caller's signal is already aborted at entry, else run the retry
loop from attempt 0 with maxRetries + 1 iterations available and empty
lastError and lastResponse. -/
def wrappedFetch (p : Policy) (entryAborted : Bool) (envs : Nat → AttemptEnv)
    (url : String) : Option (FetchOutcome × List Ev) :=
  if p.enabled = false then passthroughFetch envs
  else if entryAborted = true then passthroughFetch envs
  else loopGo p envs url (p.maxRetries + 1) 0 none none

/-- The attempt settles with a retryable failing outcome in the sense of the
spec: a 429 response, a 5xx response, a timeout, or a thrown network-level
error (any non-AbortError rejection), with the caller's signal quiet at the
loop-top check. -/
def retryableFail (p : Policy) (env : AttemptEnv) : Prop :=
  env.abortedAtTop = false ∧
    ((∃ r, attemptOutcome p env = some (Except.ok r) ∧ (r.status = 429 ∨ 500 ≤ r.status)) ∨
      (∃ e, attemptOutcome p env = some (Except.error e) ∧ e.name ≠ "AbortError"))

/-- The error the loop body records in lastError for a failing attempt with
this environment (src/index.js:760, 771, 792). -/
def recordedError (p : Policy) (env : AttemptEnv) : JsError :=
  match attemptOutcome p env with
  | some (Except.ok r) =>
    if r.status = 429 then rateLimitError r else serverError r
  | some (Except.error e) => e
  | none => jsUndefined

/-! Concrete fixtures used by witnesses and counterexamples. -/

/-- A network-level rejection as thrown by a failed host fetch. -/
def netErr : JsError := { name := "TypeError", message := "Failed to fetch" }

/-- An abort rejection carrying the standard DOMException name. -/
def abortSigErr : JsError := { name := "AbortError", message := "signal is aborted without reason" }

def resp200 : Response := { status := 200, statusText := "OK", retryAfterHeader := none }

def resp403 : Response := { status := 403, statusText := "Forbidden", retryAfterHeader := none }

def resp429 : Response := { status := 429, statusText := "Too Many Requests", retryAfterHeader := none }

/-- A 429 response carrying a Retry-After header of ten seconds. -/
def resp429ra : Response :=
  { status := 429, statusText := "Too Many Requests", retryAfterHeader := some ("10") }

/-- The policy of the spec's end-to-end scenario: maxRetries 2, retryDelay
1000, rateLimitDelay 1000, minRetryDelay 0, timeout race off. -/
def pScenario : Policy :=
  { enabled := true, maxRetries := 2, retryDelay := 1000, rateLimitDelay := 1000,
    thinkingTimeout := 60000, enableThinkingTimeout := false, showErrorNotification := true,
    streamInactivityTimeout := 30000, minRetryDelay := 0, debugMode := false }

/-- The scenario policy with a single retry and a 5000 ms base delay. -/
def pOneRetry : Policy :=
  { pScenario with maxRetries := 1, retryDelay := 5000 }

/-- The scenario policy with the timeout race enabled and thinkingTimeout 0. -/
def pTimerZero : Policy :=
  { pScenario with enableThinkingTimeout := true, thinkingTimeout := 0 }

/-- An attempt whose fetch resolves with response r after 1 ms. -/
def envOk (r : Response) : AttemptEnv :=
  { abortedAtTop := false, fetchOutcome := some (1, Except.ok r), abortedAtCatch := false }

/-- An attempt whose fetch rejects with error e after 1 ms. -/
def envErr (e : JsError) : AttemptEnv :=
  { abortedAtTop := false, fetchOutcome := some (1, Except.error e), abortedAtCatch := false }

/-- An attempt found aborted at the loop-top check. -/
def envTopAbort : AttemptEnv :=
  { abortedAtTop := true, fetchOutcome := none, abortedAtCatch := true }

/-- An attempt whose fetch rejects with the abort DOMException while the
caller's signal is aborted at catch time. -/
def envMidAbort : AttemptEnv :=
  { abortedAtTop := false, fetchOutcome := some (1, Except.error abortSigErr),
    abortedAtCatch := true }

/-- An attempt resolving 200 after 5 ms, for the zero-timeout race. -/
def envSlowOk : AttemptEnv :=
  { abortedAtTop := false, fetchOutcome := some (5, Except.ok resp200), abortedAtCatch := false }

def envsAllNet : Nat → AttemptEnv := fun _ => envErr netErr

def envsAll403 : Nat → AttemptEnv := fun _ => envOk resp403

def envsTopAbortAll : Nat → AttemptEnv := fun _ => envTopAbort

def envsMidAbortAll : Nat → AttemptEnv := fun _ => envMidAbort

/-- First attempt fails with a network error, second resolves 200. -/
def envsNetThenOk : Nat → AttemptEnv := fun i => if i = 0 then envErr netErr else envOk resp200

/-- The server returns 429 three times, then 200. -/
def envsThree429 : Nat → AttemptEnv := fun i => if i < 3 then envOk resp429 else envOk resp200

/-- The server returns 429 twice, then 200. -/
def envsTwo429 : Nat → AttemptEnv := fun i => if i < 2 then envOk resp429 else envOk resp200

/-- A 429 with Retry-After on attempt 0, then network errors. -/
def envsStale : Nat → AttemptEnv := fun i => if i = 0 then envOk resp429ra else envErr netErr

def urlGen : String := "/api/chat/completions"

def urlPlain : String := "https://example.com/api/data"

/-! Bridging lemmas between the executable Math.max / Math.min / Math.pow
models and the order-theoretic operations. -/

theorem maxQ_eq_max (a b : ℚ) : maxQ a b = max a b := by
  rw [maxQ, max_def]

theorem minQ_eq_min (a b : ℚ) : minQ a b = min a b := by
  rw [minQ, min_def]

theorem powQ_eq_pow (b : ℚ) (n : Nat) : powQ b n = b ^ n := by
  induction n with
  | zero => rw [powQ, pow_zero]
  | succ m ih => rw [powQ, pow_succ, ih]

/-! Floor and monotonicity lemmas for the delay calculator. -/

theorem delayAfterHeader_ge_min (p : Policy) (resp : Option Response) :
    p.minRetryDelay ≤ delayAfterHeader p resp := by
  cases resp with
  | none => simp [delayAfterHeader]
  | some r =>
    cases hh : r.retryAfterHeader with
    | none => simp [delayAfterHeader, hh]
    | some h =>
      cases hp : parseIntJS h with
      | none => simp [delayAfterHeader, hh, hp]
      | some s =>
        simp only [delayAfterHeader, hh, hp, maxQ_eq_max]
        exact le_max_left _ _

theorem delayAfterRate_ge_header (p : Policy) (resp : Option Response) (a : Nat) :
    delayAfterHeader p resp ≤ delayAfterRate p resp a := by
  cases resp with
  | none => simp [delayAfterRate]
  | some r =>
    by_cases h : r.status = 429
    · simp only [delayAfterRate, if_pos h, maxQ_eq_max]
      exact le_max_left _ _
    · simp [delayAfterRate, if_neg h]

theorem getRetryDelay_ge_rateStage (p : Policy) (e : Option JsError) (resp : Option Response)
    (a : Nat) : delayAfterRate p resp a ≤ getRetryDelay p e resp a := by
  rw [getRetryDelay, maxQ_eq_max]
  exact le_max_left _ _

theorem getRetryDelay_ge_min (p : Policy) (e : Option JsError) (resp : Option Response)
    (a : Nat) : p.minRetryDelay ≤ getRetryDelay p e resp a :=
  le_trans (delayAfterHeader_ge_min p resp)
    (le_trans (delayAfterRate_ge_header p resp a) (getRetryDelay_ge_rateStage p e resp a))

theorem delayAfterRate_mono (p : Policy) (resp : Option Response) (a b : Nat)
    (hrl : 0 ≤ p.rateLimitDelay) (hab : a ≤ b) :
    delayAfterRate p resp a ≤ delayAfterRate p resp b := by
  cases resp with
  | none => simp [delayAfterRate]
  | some r =>
    by_cases h : r.status = 429
    · simp only [delayAfterRate, if_pos h, maxQ_eq_max]
      refine max_le_max (le_refl _) ?_
      rw [powQ_eq_pow, powQ_eq_pow]
      exact mul_le_mul_of_nonneg_left (pow_le_pow_right₀ (by norm_num) hab) hrl
    · simp [delayAfterRate, if_neg h]

/-- C2: getRetryDelay computes the layered maximum worded by the spec: it
equals the spec transcription computeDelaySpec, it is never below
minRetryDelay, and a Retry-After header of 10 yields at least 10000 ms. -/
theorem c2_delay_layered_max (p : Policy) (e : Option JsError) (resp : Option Response)
    (attempt : Nat) :
    getRetryDelay p e resp attempt = computeDelaySpec p resp attempt ∧
    p.minRetryDelay ≤ getRetryDelay p e resp attempt ∧
    (∀ r, resp = some r → r.retryAfterHeader = some ("10") →
      (10000 : ℚ) ≤ getRetryDelay p e resp attempt) := by
  refine ⟨?_, getRetryDelay_ge_min p e resp attempt, ?_⟩
  · cases resp with
    | none =>
      simp [getRetryDelay, computeDelaySpec, delayAfterRate, delayAfterHeader, maxQ_eq_max,
        powQ_eq_pow]
    | some r =>
      cases hh : r.retryAfterHeader with
      | none =>
        simp [getRetryDelay, computeDelaySpec, delayAfterRate, delayAfterHeader, hh,
          maxQ_eq_max, powQ_eq_pow]
      | some h =>
        cases hp : parseIntJS h with
        | none =>
          simp [getRetryDelay, computeDelaySpec, delayAfterRate, delayAfterHeader, hh, hp,
            maxQ_eq_max, powQ_eq_pow]
        | some s =>
          simp [getRetryDelay, computeDelaySpec, delayAfterRate, delayAfterHeader, hh, hp,
            maxQ_eq_max, minQ_eq_min, powQ_eq_pow]
  · rintro r rfl hra
    refine le_trans ?_
      (le_trans (delayAfterRate_ge_header p (some r) attempt)
        (getRetryDelay_ge_rateStage p e (some r) attempt))
    have hp : parseIntJS ("10") = some 10 := by decide
    simp only [delayAfterHeader, hra, hp, maxQ_eq_max, minQ_eq_min]
    have h1 : (((10 : Int) : ℚ) * 1000) = 10000 := by norm_num
    rw [h1]
    have h2 : min (10000 : ℚ) 30000 = 10000 := by norm_num
    rw [h2]
    exact le_max_right _ _

/-- C2 witness: at the scenario policy with a Retry-After 10 header on a 429
response, attempt 1, the computed delay is at least 10000 ms. -/
theorem c2_delay_layered_max_witness :
    (10000 : ℚ) ≤ getRetryDelay pScenario (some netErr) (some resp429ra) 1 :=
  (c2_delay_layered_max pScenario (some netErr) (some resp429ra) 1).2.2 resp429ra rfl rfl

/-- C5: for a fixed error, response and policy with nonnegative delay bases,
getRetryDelay is monotone non-decreasing in the attempt number. -/
theorem c5_delay_monotone (p : Policy) (e : Option JsError) (resp : Option Response)
    (a b : Nat) (hrd : 0 ≤ p.retryDelay) (hrl : 0 ≤ p.rateLimitDelay) (hab : a ≤ b) :
    getRetryDelay p e resp a ≤ getRetryDelay p e resp b := by
  rw [getRetryDelay, getRetryDelay, maxQ_eq_max, maxQ_eq_max]
  refine max_le_max (delayAfterRate_mono p resp a b hrl hab) ?_
  rw [powQ_eq_pow, powQ_eq_pow]
  exact mul_le_mul_of_nonneg_left (pow_le_pow_right₀ (by norm_num) hab) hrd

/-- C5 witness: at the scenario policy the delay for attempt 1 is at most
the delay for attempt 3. -/
theorem c5_delay_monotone_witness :
    getRetryDelay pScenario none (some resp429) 1 ≤ getRetryDelay pScenario none (some resp429) 3 :=
  c5_delay_monotone pScenario none (some resp429) 1 3 (by norm_num [pScenario])
    (by norm_num [pScenario]) (by norm_num)

/-! The stream validity check. -/

/-- C8: the validity check never flags a response: for every policy, every
value of the module-level streamTimeoutId (never assigned in the module),
every response and every url, isResponseInvalid returns invalid = false, so
no stream-inactivity retry can ever be triggered, contradicting the claimed
stream_inactivity classification. -/
theorem c8_stream_check_never_invalid (p : Policy) (stid : Option Nat) (r : Response)
    (url : String) : isResponseInvalid p stid r url = (false, "") := by
  rw [isResponseInvalid]
  by_cases h0 : p.streamInactivityTimeout = 0
  · rw [if_pos h0]
  · rw [if_neg h0]
    by_cases hg : (generationEndpoints.any (fun ep => strIncludes url ep)) = false
    · simp only [hg, if_pos]
    · simp only [hg, if_neg]
      by_cases hs : stid.isSome
      · simp [hs]
      · simp [hs]

/-- C6 counterexample: with enableThinkingTimeout true and thinkingTimeout 0
the timeout race is still armed, and an attempt whose fetch would resolve
200 after 5 ms is classified as a timeout failure by the timer, refuting
that thinkingTimeout 0 disables the race. -/
theorem c6_zero_timeout_still_races :
    pTimerZero.thinkingTimeout = 0 ∧ pTimerZero.enableThinkingTimeout = true ∧
    attemptOutcome pTimerZero envSlowOk = some (Except.error timeoutError) ∧
    rawSettle envSlowOk = some (Except.ok resp200) := by
  refine ⟨by with_unfolding_all rfl, rfl, by with_unfolding_all rfl, rfl⟩

/-- C6 amended: the timeout race is governed by enableThinkingTimeout alone,
regardless of the thinkingTimeout value: with the flag off the attempt
settles exactly as the bare fetch does, and with the flag on the attempt is
classified as a timeout failure whenever the fetch does not settle by the
timer, including when thinkingTimeout is 0. -/
theorem c6_race_armed_by_flag_only (p : Policy) (env : AttemptEnv) :
    (p.enableThinkingTimeout = false → attemptOutcome p env = rawSettle env) ∧
    (p.enableThinkingTimeout = true → env.fetchOutcome = none →
      attemptOutcome p env = some (Except.error timeoutError)) ∧
    (p.enableThinkingTimeout = true → ∀ t res, env.fetchOutcome = some (t, res) →
      p.thinkingTimeout < t → attemptOutcome p env = some (Except.error timeoutError)) := by
  refine ⟨?_, ?_, ?_⟩
  · intro h
    rw [attemptOutcome, rawSettle, h]
    simp
  · intro h hf
    rw [attemptOutcome, h, hf]
    simp
  · intro h t res hf ht
    rw [attemptOutcome, h, hf]
    simp [ht]

/-- C6 amended witness: with the flag off an attempt resolving 200 settles
as the bare fetch; with the flag on and thinkingTimeout 0 a fetch settling
at 5 ms is classified as a timeout failure. -/
theorem c6_race_armed_by_flag_only_witness :
    attemptOutcome pScenario envSlowOk = rawSettle envSlowOk ∧
    attemptOutcome pTimerZero envSlowOk = some (Except.error timeoutError) := by
  constructor
  · exact (c6_race_armed_by_flag_only pScenario envSlowOk).1 rfl
  · exact (c6_race_armed_by_flag_only pTimerZero envSlowOk).2.2 rfl 5 (Except.ok resp200) rfl
      (by with_unfolding_all norm_num [pTimerZero, pScenario])

/-! Structural lemmas about the loop body. -/

theorem catchResult_eq_rb (p : Policy) (a : Nat) (e : JsError) (lr : Option Response)
    (ab : Bool) (recur : JsError → Option (FetchOutcome × List Ev))
    (hne : e.name ≠ "AbortError") :
    catchResult p a e lr ab recur =
      if p.maxRetries ≤ a then
        some (FetchOutcome.thrown e, [Ev.fetchCall a, Ev.errorNote (some e) lr])
      else (recur e).map (fun x => (x.1, Ev.fetchCall a :: retryEvents p e lr a ++ x.2)) := by
  rw [catchResult]
  by_cases ht : e.name = "TimeoutError"
  · rw [if_pos ht]
  · rw [if_neg ht, if_neg hne]

theorem retryEvents_countP_isFetch (p : Policy) (e : JsError) (resp : Option Response)
    (a : Nat) : (retryEvents p e resp a).countP Ev.isFetch = 0 := by
  rw [retryEvents]
  by_cases h : 0 < a
  · simp [h, Ev.isFetch]
  · simp [h, Ev.isFetch]

theorem retryEvents_countP_isNote (p : Policy) (e : JsError) (resp : Option Response)
    (a : Nat) : (retryEvents p e resp a).countP Ev.isNote = 0 := by
  rw [retryEvents]
  by_cases h : 0 < a
  · simp [h, Ev.isNote]
  · simp [h, Ev.isNote]

/-- C3: an attempt that resolves with a client-error status in
[400,429) or (429,500) makes the wrapped loop return that response
unchanged at once: no retry, no thrown error, no toast and no error
notification follow, whatever the remaining retry budget. -/
theorem c3_client_error_returned (p : Policy) (envs : Nat → AttemptEnv) (url : String)
    (fuel a : Nat) (le : Option JsError) (lr : Option Response) (r : Response)
    (htop : (envs a).abortedAtTop = false)
    (hout : attemptOutcome p (envs a) = some (Except.ok r))
    (h400 : 400 ≤ r.status) (h429 : r.status ≠ 429) (h500 : r.status < 500) :
    loopGo p envs url (fuel + 1) a le lr = some (FetchOutcome.ret r, [Ev.fetchCall a]) := by
  rw [loopGo, htop]
  simp only [Bool.false_eq_true, if_false, hout]
  rw [if_neg (by omega : ¬(200 ≤ r.status ∧ r.status ≤ 299)), if_neg h429,
    if_neg (by omega : ¬500 ≤ r.status), if_pos h400]

/-- C3 witness: a 403 on the first attempt is returned as-is with a single
fetch event and nothing else. -/
theorem c3_client_error_returned_witness :
    loopGo pScenario envsAll403 urlPlain 3 0 none none =
      some (FetchOutcome.ret resp403, [Ev.fetchCall 0]) :=
  c3_client_error_returned pScenario envsAll403 urlPlain 2 0 none none resp403 rfl rfl
    (by norm_num [resp403]) (by norm_num [resp403]) (by norm_num [resp403])

/-- C4: once the caller's original signal is aborted, the loop never starts
another attempt: found aborted at the top of an iteration it throws the
abort DOMException at once with no fetch, no toast, no wait and no error
notification; and an in-flight attempt that rejects with an AbortError
while the caller's signal is aborted is rethrown at once, the only event
being that attempt's fetch, whatever the remaining retry budget. -/
theorem c4_caller_abort_immediate (p : Policy) (envs : Nat → AttemptEnv) (url : String)
    (fuel a : Nat) (le : Option JsError) (lr : Option Response) :
    ((envs a).abortedAtTop = true →
      loopGo p envs url (fuel + 1) a le lr =
        some (FetchOutcome.thrown abortedByUserError, [])) ∧
    (∀ e, (envs a).abortedAtTop = false →
      attemptOutcome p (envs a) = some (Except.error e) →
      e.name = "AbortError" → (envs a).abortedAtCatch = true →
      loopGo p envs url (fuel + 1) a le lr = some (FetchOutcome.thrown e, [Ev.fetchCall a])) := by
  constructor
  · intro h
    rw [loopGo, h]
    simp
  · intro e htop hout hname hcatch
    rw [loopGo, htop]
    simp only [Bool.false_eq_true, if_false, hout]
    rw [catchResult, if_neg (by rw [hname]; decide), if_pos hname, hcatch]
    simp

/-- C4 witness: a loop-top abort throws with no events, and a mid-attempt
abort rejection with the signal aborted rethrows with only its fetch event. -/
theorem c4_caller_abort_immediate_witness :
    loopGo pScenario envsTopAbortAll urlPlain 3 0 none none =
      some (FetchOutcome.thrown abortedByUserError, []) ∧
    loopGo pScenario envsMidAbortAll urlPlain 3 0 none none =
      some (FetchOutcome.thrown abortSigErr, [Ev.fetchCall 0]) := by
  constructor
  · exact (c4_caller_abort_immediate pScenario envsTopAbortAll urlPlain 2 0 none none).1 rfl
  · exact (c4_caller_abort_immediate pScenario envsMidAbortAll urlPlain 2 0 none none).2
      abortSigErr rfl (by with_unfolding_all rfl) rfl rfl

/-- C7 counterexample: under a policy with one retry, a first attempt that
fails with a network error is retried after a 5000 ms wait with no retry
toast at all before (or after) that wait, refuting that the notification is
invoked before every inter-attempt wait including the one following
attempt 0. -/
theorem c7_first_wait_has_no_toast :
    loopGo pOneRetry envsNetThenOk urlPlain 2 0 none none =
      some (FetchOutcome.ret resp200, [Ev.fetchCall 0, Ev.waitDelay 5000, Ev.fetchCall 1]) ∧
    ([Ev.fetchCall 0, Ev.waitDelay 5000, Ev.fetchCall 1].countP Ev.isToast = 0 ∧
      [Ev.fetchCall 0, Ev.waitDelay 5000, Ev.fetchCall 1].countP Ev.isWait = 1) := by
  exact ⟨by with_unfolding_all rfl, by decide⟩

/-- C7 amended: for every retryable failure with attempt < maxRetries the
loop runs handleRetry, whose wait of getRetryDelay(error, response, attempt)
is preceded by a retry toast carrying (attempt, maxRetries, error) exactly
when attempt > 0; the wait that follows the failure of attempt 0 has no
retry notification.  The three conjuncts cover a thrown non-abort error, a
429 response and a 5xx response. -/
theorem c7_toast_exactly_when_retrying_after_first (p : Policy) (envs : Nat → AttemptEnv)
    (url : String) (fuel a : Nat) (le : Option JsError) (lr : Option Response)
    (htop : (envs a).abortedAtTop = false) (hlt : a < p.maxRetries) :
    (∀ e, attemptOutcome p (envs a) = some (Except.error e) → e.name ≠ "AbortError" →
      loopGo p envs url (fuel + 1) a le lr =
        (loopGo p envs url fuel (a + 1) (some e) lr).map
          (fun x => (x.1, Ev.fetchCall a ::
            ((if 0 < a then [Ev.retryToast a p.maxRetries e] else []) ++
              Ev.waitDelay (getRetryDelay p (some e) lr a) :: x.2)))) ∧
    (∀ r, attemptOutcome p (envs a) = some (Except.ok r) → r.status = 429 →
      loopGo p envs url (fuel + 1) a le lr =
        (loopGo p envs url fuel (a + 1) le (some r)).map
          (fun x => (x.1, Ev.fetchCall a ::
            ((if 0 < a then [Ev.retryToast a p.maxRetries (rateLimitError r)] else []) ++
              Ev.waitDelay (getRetryDelay p (some (rateLimitError r)) (some r) a) :: x.2)))) ∧
    (∀ r, attemptOutcome p (envs a) = some (Except.ok r) → 500 ≤ r.status →
      loopGo p envs url (fuel + 1) a le lr =
        (loopGo p envs url fuel (a + 1) le (some r)).map
          (fun x => (x.1, Ev.fetchCall a ::
            ((if 0 < a then [Ev.retryToast a p.maxRetries (serverError r)] else []) ++
              Ev.waitDelay (getRetryDelay p (some (serverError r)) (some r) a) :: x.2)))) := by
  refine ⟨?_, ?_, ?_⟩
  · intro e hout hne
    rw [loopGo, htop]
    simp only [Bool.false_eq_true, if_false, hout]
    rw [catchResult_eq_rb p a e lr (envs a).abortedAtCatch _ hne,
      if_neg (by omega : ¬p.maxRetries ≤ a)]
    simp [retryEvents]
  · intro r hout h429
    rw [loopGo, htop]
    simp only [Bool.false_eq_true, if_false, hout]
    rw [if_neg (by omega : ¬(200 ≤ r.status ∧ r.status ≤ 299)), if_pos h429, if_pos hlt]
    simp [retryEvents]
  · intro r hout h500
    rw [loopGo, htop]
    simp only [Bool.false_eq_true, if_false, hout]
    rw [if_neg (by omega : ¬(200 ≤ r.status ∧ r.status ≤ 299)),
      if_neg (by omega : ¬r.status = 429), if_pos h500, if_pos hlt]
    simp [retryEvents]

/-- C7 amended witness: at attempt 1 of the scenario policy a network error
produces a toast for attempt 1 before the wait. -/
theorem c7_toast_exactly_when_retrying_after_first_witness :
    loopGo pScenario envsAllNet urlPlain 2 1 none none =
      (loopGo pScenario envsAllNet urlPlain 1 2 (some netErr) none).map
        (fun x => (x.1, Ev.fetchCall 1 ::
          ((if 0 < 1 then [Ev.retryToast 1 pScenario.maxRetries netErr] else []) ++
            Ev.waitDelay (getRetryDelay pScenario (some netErr) none 1) :: x.2))) :=
  (c7_toast_exactly_when_retrying_after_first pScenario envsAllNet urlPlain 1 1 none none rfl
    (by norm_num [pScenario])).1 netErr (by with_unfolding_all rfl) (by decide)

/-- C9 counterexample: under the scenario policy maxRetries 2, retryDelay
1000, rateLimitDelay 1000, minRetryDelay 0, a server answering 429 three
times (a 200 only available on the fourth call) drives the wrapped fetch to
exactly 3 attempts with waits of 1000 ms and 1500 ms, ONE retry toast, and
a terminal thrown rate-limit error after the error notification: the 200
response is never returned, refuting the claimed final 200 and the claimed
two notifications. -/
theorem c9_three_429_exhausts_budget :
    wrappedFetch pScenario false envsThree429 urlGen =
      some (FetchOutcome.thrown (rateLimitError resp429),
        [Ev.fetchCall 0, Ev.waitDelay 1000, Ev.fetchCall 1,
          Ev.retryToast 1 2 (rateLimitError resp429), Ev.waitDelay 1500, Ev.fetchCall 2,
          Ev.errorNote (some (rateLimitError resp429)) (some resp429)]) ∧
    [Ev.fetchCall 0, Ev.waitDelay 1000, Ev.fetchCall 1,
      Ev.retryToast 1 2 (rateLimitError resp429), Ev.waitDelay 1500, Ev.fetchCall 2,
      Ev.errorNote (some (rateLimitError resp429)) (some resp429)].countP Ev.isToast = 1 := by
  exact ⟨by with_unfolding_all rfl, by decide⟩

/-- C9 amended: under the scenario policy, a server answering 429 twice and
then 200 yields exactly 3 attempts, the 200 response as final result, waits
of exactly 1000 ms and 1500 ms, and one retry toast, fired before the
second wait only. -/
theorem c9_two_429_then_success :
    wrappedFetch pScenario false envsTwo429 urlGen =
      some (FetchOutcome.ret resp200,
        [Ev.fetchCall 0, Ev.waitDelay 1000, Ev.fetchCall 1,
          Ev.retryToast 1 2 (rateLimitError resp429), Ev.waitDelay 1500, Ev.fetchCall 2]) := by
  with_unfolding_all rfl

/-- C10: when attempt 0 resolves with a 429 and attempt 1 then rejects with
a non-abort error, the delay before the next retry is computed from the
stale 429 response recorded in lastResponse: the wait after attempt 1 is
getRetryDelay(e, stale 429 response, 1) — so its Retry-After header and the
rate-limit schedule apply to the unrelated failure — and that delay is at
least rateLimitDelay * 1.5^1. -/
theorem c10_stale_response_drives_delay (p : Policy) (envs : Nat → AttemptEnv) (url : String)
    (fuel : Nat) (le : Option JsError) (r : Response) (e : JsError)
    (hmax : 2 ≤ p.maxRetries)
    (h0top : (envs 0).abortedAtTop = false)
    (h0out : attemptOutcome p (envs 0) = some (Except.ok r))
    (h429 : r.status = 429)
    (h1top : (envs 1).abortedAtTop = false)
    (h1out : attemptOutcome p (envs 1) = some (Except.error e))
    (hne : e.name ≠ "AbortError") :
    loopGo p envs url (fuel + 2) 0 le none =
      (loopGo p envs url fuel 2 (some e) (some r)).map
        (fun x => (x.1,
          Ev.fetchCall 0 ::
            Ev.waitDelay (getRetryDelay p (some (rateLimitError r)) (some r) 0) ::
              Ev.fetchCall 1 :: Ev.retryToast 1 p.maxRetries e ::
                Ev.waitDelay (getRetryDelay p (some e) (some r) 1) :: x.2)) ∧
    p.rateLimitDelay * powQ (3 / 2 : ℚ) 1 ≤ getRetryDelay p (some e) (some r) 1 := by
  constructor
  · rw [loopGo, h0top]
    simp only [Bool.false_eq_true, if_false, h0out]
    rw [if_neg (by omega : ¬(200 ≤ r.status ∧ r.status ≤ 299)), if_pos h429,
      if_pos (by omega : 0 < p.maxRetries)]
    rw [loopGo, h1top]
    simp only [Bool.false_eq_true, if_false, h1out]
    rw [catchResult_eq_rb p 1 e (some r) (envs 1).abortedAtCatch _ hne,
      if_neg (by omega : ¬p.maxRetries ≤ 1)]
    cases hrec : loopGo p envs url fuel 2 (some e) (some r) with
    | none => simp
    | some x => simp [retryEvents]
  · refine le_trans ?_ (getRetryDelay_ge_rateStage p (some e) (some r) 1)
    rw [delayAfterRate, if_pos h429, maxQ_eq_max]
    exact le_max_right _ _

/-- C10 witness: at the scenario policy with a Retry-After 10 on the 429 of
attempt 0 and a network error on attempt 1, the second wait is computed
from the stale 429 response and is at least 1500 ms. -/
theorem c10_stale_response_drives_delay_witness :
    loopGo pScenario envsStale urlPlain 3 0 none none =
      (loopGo pScenario envsStale urlPlain 1 2 (some netErr) (some resp429ra)).map
        (fun x => (x.1,
          Ev.fetchCall 0 ::
            Ev.waitDelay (getRetryDelay pScenario (some (rateLimitError resp429ra))
              (some resp429ra) 0) ::
              Ev.fetchCall 1 :: Ev.retryToast 1 pScenario.maxRetries netErr ::
                Ev.waitDelay (getRetryDelay pScenario (some netErr) (some resp429ra) 1) ::
                  x.2)) ∧
    pScenario.rateLimitDelay * powQ (3 / 2 : ℚ) 1 ≤
      getRetryDelay pScenario (some netErr) (some resp429ra) 1 :=
  c10_stale_response_drives_delay pScenario envsStale urlPlain 1 none resp429ra netErr
    (by norm_num [pScenario]) rfl (by with_unfolding_all rfl) rfl rfl
    (by with_unfolding_all rfl) (by decide)

/-- Core exhaustion lemma: starting at attempt a with exactly the remaining
budget as fuel, if every attempt from a through maxRetries fails with a
retryable outcome, the loop performs one fetch per remaining attempt,
invokes the error notification exactly once, and throws the error recorded
for the last attempt. -/
theorem loopGo_exhausts (p : Policy) (envs : Nat → AttemptEnv) (url : String) :
    ∀ (fuel a : Nat) (le : Option JsError) (lr : Option Response),
      a + fuel = p.maxRetries + 1 → a ≤ p.maxRetries →
      (∀ i, a ≤ i → i ≤ p.maxRetries → retryableFail p (envs i)) →
      ∃ evs, loopGo p envs url fuel a le lr =
          some (FetchOutcome.thrown (recordedError p (envs p.maxRetries)), evs) ∧
        evs.countP Ev.isFetch = fuel ∧ evs.countP Ev.isNote = 1 := by
  intro fuel
  induction fuel with
  | zero => intro a le lr h1 h2 _; omega
  | succ f ih =>
    intro a le lr h1 h2 hfail
    obtain ⟨htop, hout⟩ := hfail a (le_refl a) h2
    rcases hout with ⟨r, hr, hstat⟩ | ⟨e, he, hne⟩
    · have hnotok : ¬(200 ≤ r.status ∧ r.status ≤ 299) := by omega
      by_cases hlast : a < p.maxRetries
      · -- retry branch on a 429 or 5xx response
        obtain ⟨evs, heq, hF, hN⟩ := ih (a + 1) le (some r) (by omega) (by omega)
          (fun i hi1 hi2 => hfail i (by omega) hi2)
        rcases hstat with h429 | h500
        · refine ⟨Ev.fetchCall a :: retryEvents p (rateLimitError r) (some r) a ++ evs,
            ?_, ?_, ?_⟩
          · rw [loopGo, htop]
            simp only [Bool.false_eq_true, if_false, hr]
            rw [if_neg hnotok, if_pos h429, if_pos hlast, heq]
            rfl
          · simp [List.countP_cons, List.countP_append, retryEvents_countP_isFetch, hF,
              Ev.isFetch]
          · simp [List.countP_cons, List.countP_append, retryEvents_countP_isNote, hN,
              Ev.isNote]
        · have h429 : r.status ≠ 429 := by omega
          refine ⟨Ev.fetchCall a :: retryEvents p (serverError r) (some r) a ++ evs,
            ?_, ?_, ?_⟩
          · rw [loopGo, htop]
            simp only [Bool.false_eq_true, if_false, hr]
            rw [if_neg hnotok, if_neg h429, if_pos h500, if_pos hlast, heq]
            rfl
          · simp [List.countP_cons, List.countP_append, retryEvents_countP_isFetch, hF,
              Ev.isFetch]
          · simp [List.countP_cons, List.countP_append, retryEvents_countP_isNote, hN,
              Ev.isNote]
      · -- a = maxRetries: terminal failure
        have hf : f = 0 := by omega
        have ha : a = p.maxRetries := by omega
        subst hf
        rw [← ha]
        rcases hstat with h429 | h500
        · refine ⟨[Ev.fetchCall a, Ev.errorNote (some (rateLimitError r)) (some r)],
            ?_, by simp [List.countP_cons, Ev.isFetch],
            by simp [List.countP_cons, Ev.isNote]⟩
          rw [loopGo, htop]
          simp only [Bool.false_eq_true, if_false, hr]
          rw [if_neg hnotok, if_pos h429, if_neg hlast]
          simp only [recordedError, hr]
          rw [if_pos h429]
        · have h429 : r.status ≠ 429 := by omega
          refine ⟨[Ev.fetchCall a, Ev.errorNote (some (serverError r)) (some r)],
            ?_, by simp [List.countP_cons, Ev.isFetch],
            by simp [List.countP_cons, Ev.isNote]⟩
          rw [loopGo, htop]
          simp only [Bool.false_eq_true, if_false, hr]
          rw [if_neg hnotok, if_neg h429, if_pos h500, if_neg hlast]
          simp only [recordedError, hr]
          rw [if_neg h429]
    · by_cases hlast : a < p.maxRetries
      · obtain ⟨evs, heq, hF, hN⟩ := ih (a + 1) (some e) lr (by omega) (by omega)
          (fun i hi1 hi2 => hfail i (by omega) hi2)
        refine ⟨Ev.fetchCall a :: retryEvents p e lr a ++ evs, ?_, ?_, ?_⟩
        · rw [loopGo, htop]
          simp only [Bool.false_eq_true, if_false, he]
          rw [catchResult_eq_rb p a e lr (envs a).abortedAtCatch _ hne,
            if_neg (by omega : ¬p.maxRetries ≤ a), heq]
          rfl
        · simp [List.countP_cons, List.countP_append, retryEvents_countP_isFetch, hF,
            Ev.isFetch]
        · simp [List.countP_cons, List.countP_append, retryEvents_countP_isNote, hN,
            Ev.isNote]
      · have hf : f = 0 := by omega
        have ha : a = p.maxRetries := by omega
        subst hf
        rw [← ha]
        refine ⟨[Ev.fetchCall a, Ev.errorNote (some e) lr],
          ?_, by simp [List.countP_cons, Ev.isFetch],
          by simp [List.countP_cons, Ev.isNote]⟩
        rw [loopGo, htop]
        simp only [Bool.false_eq_true, if_false, he]
        rw [catchResult_eq_rb p a e lr (envs a).abortedAtCatch _ hne,
          if_pos (by omega : p.maxRetries ≤ a)]
        simp only [recordedError, he]

/-- C1: with the extension enabled and the caller's signal quiet at entry,
a call whose every attempt fails with a retryable outcome issues exactly
maxRetries + 1 underlying fetch calls, invokes the error notification
exactly once, and throws the error recorded for the last attempt. -/
theorem c1_retryable_exhaustion (p : Policy) (entryAborted : Bool) (envs : Nat → AttemptEnv)
    (url : String) (hen : p.enabled = true) (hab : entryAborted = false)
    (hfail : ∀ i, i ≤ p.maxRetries → retryableFail p (envs i)) :
    ∃ evs, wrappedFetch p entryAborted envs url =
        some (FetchOutcome.thrown (recordedError p (envs p.maxRetries)), evs) ∧
      evs.countP Ev.isFetch = p.maxRetries + 1 ∧ evs.countP Ev.isNote = 1 := by
  rw [wrappedFetch, hen, hab]
  simp only [Bool.true_eq_false, if_false]
  exact loopGo_exhausts p envs url (p.maxRetries + 1) 0 none none (by omega) (by omega)
    (fun i _ hi2 => hfail i hi2)

/-- C1 witness: at the scenario policy (maxRetries 2) with every attempt
rejecting with a network error, the wrapped fetch makes 3 underlying calls,
notifies once, and throws the recorded network error. -/
theorem c1_retryable_exhaustion_witness :
    ∃ evs, wrappedFetch pScenario false envsAllNet urlPlain =
        some (FetchOutcome.thrown (recordedError pScenario (envsAllNet pScenario.maxRetries)),
          evs) ∧
      evs.countP Ev.isFetch = pScenario.maxRetries + 1 ∧ evs.countP Ev.isNote = 1 :=
  c1_retryable_exhaustion pScenario false envsAllNet urlPlain rfl rfl
    (fun i _ => ⟨rfl, Or.inr ⟨netErr, by with_unfolding_all rfl, by decide⟩⟩)
